import Mathlib

/-!
Verification of the moonlight_launcher daemon (src/moonlight_launcher.py)
against its natural-language specification.

The script is embedded shallowly as pure Lean functions producing explicit
effect traces.  Side effects (CEC commands, the wake-on-lan packet, the
streaming-client launch, log calls, sleeps) become constructors of `Effect`;
the udev device set becomes a `List Device`; exceptions become an explicit
raised/ok flag threaded through each function, with the handler's
`try ... except` block modelled by `handle_event` wrapping
`handle_event_body`.  Wall-clock time in the power-on loop is discrete: each
iteration of the loop sleeps one second, so the `time.time()` deadline check
`time.time() < start_time + 10` becomes `iterations completed < 10`.
-/

/-- Observable side effects performed by the script, in program order.
Log payloads are abstracted away (they are diagnostic strings); the data
that the control flow depends on (the presence count, the MAC address, the
launched command) is kept. -/
inductive Effect
  | logInfo
  | logDebug
  | logDebugCount (n : Nat)
  | logError
  | logSuccess
  | readConfigFile
  | sendMagicPacket (mac : String)
  | cecPowerOn
  | cecIsOn
  | cecSetActiveSource
  | cecStandby
  | sleep (secs : Nat)
  | runProcess (cmd : String)
  | exitProcess
  deriving DecidableEq, Repr

/-- A udev device: its device node, subsystem and udev tags. -/
structure Device where
  node : String
  subsystem : String
  tags : List String
  deriving DecidableEq, Repr

/-- The filter used by the census loop in `handle_event` (line 146):
`match_property('SUBSYSTEM', 'hidraw').match_tag('controller')`. -/
def matchesController (d : Device) : Bool :=
  d.subsystem == "hidraw" && d.tags.contains "controller"

/-- Lines 145-147: `count_controllers = 0; for device in context.list_devices()
.match_property('SUBSYSTEM', 'hidraw').match_tag('controller'):
count_controllers += 1`. -/
def count_controllers (devs : List Device) : Nat :=
  devs.foldl (fun acc d => if matchesController d then acc + 1 else acc) 0

/-- The configuration document `config.yml`: the optional `paths.log` field
and the `devices` list of (name, mac_address) entries. -/
structure Config where
  logPathField : Option String
  devices : List (String × String)
  deriving DecidableEq, Repr

/-- Lines 19-40: `read_log_path_from_config` returns `config.get('paths').get('log')`
(`none` models the field being absent, in which case the caller fails). -/
def read_log_path_from_config (c : Config) : Option String :=
  c.logPathField

/-- Lines 43-68: `ret_mac = ''; for device in config.get('devices'):
if device.get('name') == device_name: ret_mac = device.get('mac_address')`. -/
def read_mac_address_from_config (c : Config) (device_name : String) : String :=
  c.devices.foldl (fun ret d => if d.1 == device_name then d.2 else ret) ""

/-- Line 81: `timeout = 10` seconds for the power-on loop. -/
def timeoutSeconds : Nat := 10

/-- Lines 83-87, the power-on polling loop:
`while not on and time.time() < start_time + timeout: tv.power_on();
time.sleep(1); on = tv.is_on(); logger.debug(...)`.
`isOnAt k` is the simulated device's answer to the k-th `is_on()` poll;
`remaining = timeoutSeconds - elapsed` seconds are left before the deadline
(each iteration consumes exactly the one second it sleeps).  Returns the
effect trace, the final value of `on`, and the total number of polls done. -/
def powerOnLoop (isOnAt : Nat → Bool) : Bool → Nat → Nat → List Effect × Bool × Nat
  | true, pollsDone, _ => ([], true, pollsDone)
  | false, pollsDone, 0 => ([], false, pollsDone)
  | false, pollsDone, remaining + 1 =>
    let on2 := isOnAt (pollsDone + 1)
    let rest := powerOnLoop isOnAt on2 (pollsDone + 1) remaining
    (Effect.cecPowerOn :: Effect.sleep 1 :: Effect.cecIsOn :: Effect.logDebug :: rest.1,
     rest.2)

/-- Lines 71-97: `turn_on_tv_and_switch_source`.  `powerFails` injects a CEC
exception at entry (e.g. `cec.Device` raising).  Returns the effect trace,
whether the TV ended up on, and whether the call returned normally (no
exception). -/
def turn_on_tv_and_switch_source (powerFails : Bool) (isOnAt : Nat → Bool) :
    List Effect × Bool × Bool :=
  if powerFails then ([], false, false)
  else
    let r := powerOnLoop isOnAt false 0 timeoutSeconds
    let tail := if r.2.1 then [Effect.cecSetActiveSource, Effect.logDebug]
                else [Effect.logError]
    (r.1 ++ tail ++ [Effect.sleep 5], r.2.1, true)

/-- Lines 100-109: `launch_moonlight` runs `subprocess.run("moonlight")` inside
its own try/except, so a launch failure is logged and never re-raised. -/
def launch_moonlight (launchFails : Bool) : List Effect :=
  Effect.logInfo ::
    (if launchFails then [Effect.logError]
     else [Effect.runProcess "moonlight", Effect.logSuccess])

/-- Lines 112-119: `turn_off_tv` sends a single standby command, no polling.
`powerFails` injects a CEC exception; the Bool is whether it returned
normally. -/
def turn_off_tv (powerFails : Bool) : List Effect × Bool :=
  if powerFails then ([], false)
  else ([Effect.cecStandby, Effect.logSuccess], true)

/-- Fault injection: which of the fallible steps inside `handle_event`'s try
block raises an exception (device enumeration, config read, wake packet
send, CEC power control, process launch). -/
structure Faults where
  countFails : Bool
  configFails : Bool
  wakeFails : Bool
  powerFails : Bool
  launchFails : Bool
  deriving DecidableEq, Repr

def noFaults : Faults := ⟨false, false, false, false, false⟩

/-- The fault configuration in which only the wake-on-lan send raises. -/
def wakeFault : Faults := ⟨false, false, true, false, false⟩

/-- Lines 139-163, the body of `handle_event`'s try block.  Returns the trace
of effects performed before returning or raising, and whether an exception
was raised (to be caught by the enclosing except block). -/
def handle_event_body (f : Faults) (isOnAt : Nat → Bool) (cfg : Config)
    (action : String) (devs : List Device) : List Effect × Bool :=
  let pre := [Effect.logInfo, Effect.logDebug]
  if f.countFails then (pre, true)
  else
    let count := count_controllers devs
    let pre2 := pre ++ [Effect.logDebugCount count]
    if action == "add" && count == 1 then
      let pre3 := pre2 ++ [Effect.logDebug]
      if f.configFails then (pre3, true)
      else
        let mac := read_mac_address_from_config cfg "pc"
        let pre4 := pre3 ++ [Effect.readConfigFile]
        if f.wakeFails then (pre4, true)
        else
          let pre5 := pre4 ++ [Effect.sendMagicPacket mac, Effect.logInfo]
          let r := turn_on_tv_and_switch_source f.powerFails isOnAt
          if !r.2.2 then (pre5 ++ r.1, true)
          else (pre5 ++ r.1 ++ launch_moonlight f.launchFails ++ [Effect.logSuccess],
                false)
    else if action == "remove" && count == 0 then
      let pre3 := pre2 ++ [Effect.logDebug]
      let r := turn_off_tv f.powerFails
      if !r.2 then (pre3 ++ r.1, true)
      else (pre3 ++ r.1 ++ [Effect.logSuccess], false)
    else (pre2, false)

/-- Lines 122-166: `handle_event`, the whole body wrapped in
`try: ... except Exception as e: logger.error(...)`.  The second component
records whether an exception escaped the handler (the except block catches
every raise from the body, so it is false on both branches). -/
def handle_event (f : Faults) (isOnAt : Nat → Bool) (cfg : Config)
    (action : String) (devs : List Device) : List Effect × Bool :=
  if (handle_event_body f isOnAt cfg action devs).2 then
    ((handle_event_body f isOnAt cfg action devs).1 ++ [Effect.logError], false)
  else
    ((handle_event_body f isOnAt cfg action devs).1, false)

/-- A udev action as delivered to `handle_event`. -/
inductive UAction
  | add
  | remove
  deriving DecidableEq, Repr

/-- A hotplug event: an action together with the device it concerns. -/
structure UEvent where
  action : UAction
  dev : Device
  deriving DecidableEq, Repr

def actionString : UAction → String
  | .add => "add"
  | .remove => "remove"

/-- The kernel's device list after an event: an add attaches the device, a
remove detaches (the first occurrence of) it, and removing an absent device
leaves the list unchanged. -/
def applyEvent (devs : List Device) (e : UEvent) : List Device :=
  match e.action with
  | .add => e.dev :: devs
  | .remove => devs.erase e.dev

/-- The device list after a whole sequence of events. -/
def applyEvents (devs : List Device) (evs : List UEvent) : List Device :=
  evs.foldl applyEvent devs

/-- The per-event view of a run: each event paired with the device list
current while it is handled (the handler enumerates devices after the
kernel has applied the event). -/
def runStates (devs : List Device) : List UEvent → List (UEvent × List Device)
  | [] => []
  | e :: rest =>
    let d2 := applyEvent devs e
    (e, d2) :: runStates d2 rest

/-- The effect trace of handling one event of a run. -/
def stepTrace (f : Faults) (isOnAt : Nat → Bool) (cfg : Config)
    (p : UEvent × List Device) : List Effect :=
  (handle_event f isOnAt cfg (actionString p.1.action) p.2).1

/-- The effect traces of every event of a run, in order. -/
def runTraces (f : Faults) (isOnAt : Nat → Bool) (cfg : Config)
    (devs : List Device) (evs : List UEvent) : List (List Effect) :=
  (runStates devs evs).map (stepTrace f isOnAt cfg)

/-- The pyudev observer thread: it keeps invoking `handle_event` on each event
in arrival order, and dies (`none`) if a handler invocation lets an
exception escape. -/
def listenerRun (f : Faults) (isOnAt : Nat → Bool) (cfg : Config) :
    List Device → List UEvent → Option (List (List Effect))
  | _, [] => some []
  | devs, e :: rest =>
    let d2 := applyEvent devs e
    let r := handle_event f isOnAt cfg (actionString e.action) d2
    if r.2 then none
    else
      match listenerRun f isOnAt cfg d2 rest with
      | none => none
      | some trs => some (r.1 :: trs)

/-- Lines 169-178: `handle_stop_signals` logs the signal name looked up in
`signal_dict` (KeyError for an unregistered signal number would escape) and
calls `exit()`.  Bool component: whether an exception escaped. -/
def signal_dict (n : Nat) : Option String :=
  if n == 2 then some "SIGINT"
  else if n == 15 then some "SIGTERM"
  else none

def handle_stop_signals (signum : Nat) : List Effect × Bool :=
  match signal_dict signum with
  | none => ([], true)
  | some _ => ([Effect.logDebug, Effect.logSuccess, Effect.exitProcess], false)

/-- Lines 181-190: startup reads the log path from the config file and
installs the log sink before anything else; a missing config file or a
missing log path raises before the main try block, so the process dies
(`none`).  The MAC address is NOT read here. -/
def startup (configFile : Option Config) : Option String :=
  match configFile with
  | none => none
  | some c =>
    match read_log_path_from_config c with
    | none => none
    | some p => some p

/-! ### Effect classifiers -/

def isMagic : Effect → Bool
  | .sendMagicPacket _ => true
  | _ => false

def isPowerOnCmd : Effect → Bool
  | .cecPowerOn => true
  | _ => false

def isSetSource : Effect → Bool
  | .cecSetActiveSource => true
  | _ => false

def isStandby : Effect → Bool
  | .cecStandby => true
  | _ => false

def isRunProcess : Effect → Bool
  | .runProcess _ => true
  | _ => false

/-- An actuator side effect, as opposed to diagnostic logging and sleeping:
a network packet, a CEC command, or a process launch. -/
def isSideEffect : Effect → Bool
  | .sendMagicPacket _ => true
  | .cecPowerOn => true
  | .cecIsOn => true
  | .cecSetActiveSource => true
  | .cecStandby => true
  | .runProcess _ => true
  | _ => false

/-- An effect that the power-on polling loop may emit. -/
def isPollEffect : Effect → Bool
  | .cecPowerOn => true
  | .sleep _ => true
  | .cecIsOn => true
  | .logDebug => true
  | _ => false

/-! ### Spec-side session state (the SessionState of the specification;
the script itself keeps no such state). -/

/-- Modelled from the spec: `SessionState: enum {Idle, Active}`, owned by the
SessionOrchestrator; the script has no corresponding variable. -/
inductive SessionState
  | Idle
  | Active
  deriving DecidableEq, Repr

/-- Modelled from the spec: Idle to Active exactly when the recomputed count
becomes 1 after an Attach; Active to Idle exactly when it becomes 0 after a
Detach; any other combination leaves the state unchanged. -/
def specSessionStep (s : SessionState) (a : UAction) (newCount : Nat) : SessionState :=
  match s, a with
  | .Idle, .add => if newCount == 1 then .Active else .Idle
  | .Active, .remove => if newCount == 0 then .Idle else .Active
  | t, _ => t

/-- A run annotated with the spec-side session state: each event paired with
the device list current while it is handled and the SessionState before the
event (daemon start is Idle). -/
def annotatedRun (s : SessionState) (devs : List Device) :
    List UEvent → List (UEvent × List Device × SessionState)
  | [] => []
  | e :: rest =>
    let d2 := applyEvent devs e
    (e, d2, s) ::
      annotatedRun (specSessionStep s e.action (count_controllers d2)) d2 rest

/-! ### Concrete fixtures -/

def ctrl1 : Device := ⟨"/dev/hidraw0", "hidraw", ["controller"]⟩

def ctrl2 : Device := ⟨"/dev/hidraw1", "hidraw", ["controller"]⟩

def cfg0 : Config := ⟨some "/var/log/moonlight.log", [("pc", "AA:BB:CC:DD:EE:FF")]⟩

/-- A config whose devices list has no entry named `pc`. -/
def cfgNoPC : Config := ⟨some "/var/log/moonlight.log", [("laptop", "11:22:33:44:55:66")]⟩

/-- A config file that is present but has no log path. -/
def cfgNoLog : Config := ⟨none, [("pc", "AA:BB:CC:DD:EE:FF")]⟩

/-- A TV that never reports being on. -/
def neverOn : Nat → Bool := fun _ => false

/-- A TV that first reports being on at the k-th poll. -/
def onAfter (k : Nat) : Nat → Bool := fun n => decide (k ≤ n)


/-- The actuator effects whose presence and order the orchestration claims are
about: the wake packet, the CEC commands and the client launch (polls, logs
and sleeps filtered out). -/
def keyEffect : Effect → Bool
  | .sendMagicPacket _ => true
  | .cecPowerOn => true
  | .cecSetActiveSource => true
  | .cecStandby => true
  | .runProcess _ => true
  | _ => false

/-- The event sequence of claim C4: Attach, Attach, Detach, Detach. -/
def evs4 : List UEvent :=
  [⟨.add, ctrl1⟩, ⟨.add, ctrl2⟩, ⟨.remove, ctrl2⟩, ⟨.remove, ctrl1⟩]

/-- Claim C1 as stated: over any run started Idle, standby is issued on an
event exactly when it is a Detach, the recomputed count is 0, and the
spec-side session state before the event was Active. -/
def C1Statement : Prop :=
  ∀ (cfg : Config) (isOnAt : Nat → Bool) (devs0 : List Device) (evs : List UEvent)
    (p : UEvent × List Device × SessionState),
    p ∈ annotatedRun SessionState.Idle devs0 evs →
    (Effect.cecStandby ∈ stepTrace noFaults isOnAt cfg (p.1, p.2.1) ↔
      (p.1.action = UAction.remove ∧ count_controllers p.2.1 = 0 ∧
        p.2.2 = SessionState.Active))

/-- The amended claim C1: what the handler actually keys on is only the
action and the recomputed count, with no session state. -/
def C1Post (cfg : Config) (isOnAt : Nat → Bool) (p : UEvent × List Device) : Prop :=
  (Effect.cecStandby ∈ stepTrace noFaults isOnAt cfg p ↔
    (p.1.action = UAction.remove ∧ count_controllers p.2 = 0)) ∧
  (Effect.sendMagicPacket (read_mac_address_from_config cfg "pc") ∈
      stepTrace noFaults isOnAt cfg p ↔
    (p.1.action = UAction.add ∧ count_controllers p.2 = 1))

/-- The conclusion of claim C2: on a first-controller Attach the actuator
effects are, in order, one wake packet to the configured MAC, then n power-on
sends (1 ≤ n ≤ 10), then the switch-source command exactly if power-on
succeeded, then one client launch — unconditionally. -/
def C2Post (cfg : Config) (isOnAt : Nat → Bool) (devs : List Device) : Prop :=
  ∃ n : Nat, 1 ≤ n ∧ n ≤ 10 ∧
    (handle_event noFaults isOnAt cfg "add" devs).1.filter keyEffect =
      Effect.sendMagicPacket (read_mac_address_from_config cfg "pc") ::
        (List.replicate n Effect.cecPowerOn ++
         (if (turn_on_tv_and_switch_source false isOnAt).2.1 then
            [Effect.cecSetActiveSource] else []) ++
         [Effect.runProcess "moonlight"])

/-- Claim C5 as stated (the refutable core): the configuration is read once at
startup and never during event handling. -/
def C5Statement : Prop :=
  ∀ (f : Faults) (cfg : Config) (isOnAt : Nat → Bool) (action : String)
    (devs : List Device),
    Effect.readConfigFile ∉ (handle_event f isOnAt cfg action devs).1

/-- The conclusion of the amended claim C5: a missing config file or missing
log path is fatal at startup, but the MAC address is read from the config
file during the handling of each first-controller Attach, and a failure
there is caught inside the handler. -/
def C5Post (c cfg : Config) (isOnAt : Nat → Bool) (devs : List Device) : Prop :=
  startup none = none ∧
  startup (some c) = none ∧
  Effect.readConfigFile ∈ (handle_event noFaults isOnAt cfg "add" devs).1 ∧
  (handle_event wakeFault isOnAt cfg "add" devs).2 = false

/-- Claim C6 as stated: when the wake-packet send raises on a first-controller
Attach, handling still continues to the power-on step. -/
def C6Statement : Prop :=
  ∀ (cfg : Config) (isOnAt : Nat → Bool) (devs : List Device),
    count_controllers devs = 1 →
    Effect.cecPowerOn ∈ (handle_event wakeFault isOnAt cfg "add" devs).1

/-- The conclusion of the amended claim C6: the wake-send error is logged and
contained, but that event performs no actuator effect at all — the power-on
step and everything after it are skipped. -/
def C6Post (cfg : Config) (isOnAt : Nat → Bool) (devs : List Device) : Prop :=
  Effect.logError ∈ (handle_event wakeFault isOnAt cfg "add" devs).1 ∧
  (handle_event wakeFault isOnAt cfg "add" devs).1.filter isSideEffect = [] ∧
  (handle_event wakeFault isOnAt cfg "add" devs).2 = false

/-- The conclusion of claim C7: under every fault injection the listener
survives the whole event sequence, produces one trace per event, no handler
invocation lets an exception escape, and a raising body is answered with an
error log inside that event's handling. -/
def C7Post (f : Faults) (isOnAt : Nat → Bool) (cfg : Config)
    (devs0 : List Device) (evs : List UEvent) : Prop :=
  listenerRun f isOnAt cfg devs0 evs = some (runTraces f isOnAt cfg devs0 evs) ∧
  (runTraces f isOnAt cfg devs0 evs).length = evs.length ∧
  (∀ (action : String) (devs : List Device),
    (handle_event f isOnAt cfg action devs).2 = false) ∧
  (∀ (action : String) (devs : List Device),
    (handle_event_body f isOnAt cfg action devs).2 = true →
      Effect.logError ∈ (handle_event f isOnAt cfg action devs).1)

/-- The conclusion of claim C9: a recognized stop signal exits without any
actuator side effect and without raising. -/
def C9Post (signum : Nat) : Prop :=
  (handle_stop_signals signum).2 = false ∧
  Effect.exitProcess ∈ (handle_stop_signals signum).1 ∧
  ∀ e ∈ (handle_stop_signals signum).1, isSideEffect e = false

/-- The specification-side reading of `read_mac_address_from_config`: the MAC
of the last entry of the devices list whose name matches, or the empty
string when no entry matches. -/
def lastMatchingMac (devices : List (String × String)) (device_name : String) : String :=
  match devices.reverse.find? (fun d => d.1 == device_name) with
  | some d => d.2
  | none => ""

/-- The conclusion of claim C3, timeout half: a TV that never reports on gets
exactly 10 power-on sends spaced by 1-second sleeps, no source switch, and
the loop ends with the TV still off. -/
def C3PostNever : Prop :=
  (turn_on_tv_and_switch_source false neverOn).1.countP isPowerOnCmd = 10 ∧
  (turn_on_tv_and_switch_source false neverOn).2.1 = false ∧
  (turn_on_tv_and_switch_source false neverOn).1.countP isSetSource = 0 ∧
  (turn_on_tv_and_switch_source false neverOn).1.countP
    (fun e => e == Effect.sleep 1) = 10

/-- The conclusion of claim C3, early-success half: a TV first on at the k-th
poll gets exactly k power-on sends and then the switch-source command. -/
def C3PostK (k : Nat) : Prop :=
  (turn_on_tv_and_switch_source false (onAfter k)).1.countP isPowerOnCmd = k ∧
  (turn_on_tv_and_switch_source false (onAfter k)).2.1 = true ∧
  (turn_on_tv_and_switch_source false (onAfter k)).1.countP isSetSource = 1

/-! ### Helper lemmas -/

theorem handle_event_snd (f : Faults) (isOnAt : Nat → Bool) (cfg : Config)
    (action : String) (devs : List Device) :
    (handle_event f isOnAt cfg action devs).2 = false := by
  unfold handle_event
  split <;> rfl

/-- Every effect emitted by the power-on polling loop is a poll effect. -/
theorem powerOnLoop_poll (isOnAt : Nat → Bool) :
    ∀ (r : Nat) (b : Bool) (p : Nat), ∀ e ∈ (powerOnLoop isOnAt b p r).1,
      isPollEffect e = true := by
  intro r
  induction r with
  | zero =>
    intro b p e he
    cases b <;> simp [powerOnLoop] at he
  | succ r ih =>
    intro b p e he
    cases b with
    | true => simp [powerOnLoop] at he
    | false =>
      simp only [powerOnLoop, List.mem_cons] at he
      rcases he with rfl | rfl | rfl | rfl | h
      · rfl
      · rfl
      · rfl
      · rfl
      · exact ih _ _ e h

theorem pollEffect_not_actuator {e : Effect} (h : isPollEffect e = true) :
    isMagic e = false ∧ isRunProcess e = false ∧ isSetSource e = false ∧
      isStandby e = false := by
  cases e <;> simp_all [isPollEffect, isMagic, isRunProcess, isSetSource, isStandby]

theorem countP_poll_trace {l : List Effect} (h : ∀ e ∈ l, isPollEffect e = true) :
    l.countP isMagic = 0 ∧ l.countP isRunProcess = 0 ∧ l.countP isSetSource = 0 ∧
      l.countP isStandby = 0 := by
  refine ⟨?_, ?_, ?_, ?_⟩ <;>
    · rw [List.countP_eq_zero]
      intro e he
      have hp := pollEffect_not_actuator (h e he)
      simp_all

/-- Unfolding of `handle_event` on an Attach whose recomputed count is 1, with
no faults injected. -/
theorem handle_event_add1 (isOnAt : Nat → Bool) (cfg : Config) (devs : List Device)
    (h : count_controllers devs = 1) :
    handle_event noFaults isOnAt cfg "add" devs =
      ([Effect.logInfo, Effect.logDebug, Effect.logDebugCount 1, Effect.logDebug,
        Effect.readConfigFile,
        Effect.sendMagicPacket (read_mac_address_from_config cfg "pc"), Effect.logInfo] ++
       (powerOnLoop isOnAt false 0 10).1 ++
       (if (powerOnLoop isOnAt false 0 10).2.1 then
          [Effect.cecSetActiveSource, Effect.logDebug]
        else [Effect.logError]) ++
       [Effect.sleep 5, Effect.logInfo, Effect.runProcess "moonlight",
        Effect.logSuccess, Effect.logSuccess], false) := by
  simp [handle_event, handle_event_body, noFaults, turn_on_tv_and_switch_source,
    launch_moonlight, timeoutSeconds, h]

/-- Unfolding of `handle_event` on a Detach whose recomputed count is 0, with
no faults injected. -/
theorem handle_event_remove0 (isOnAt : Nat → Bool) (cfg : Config) (devs : List Device)
    (h : count_controllers devs = 0) :
    handle_event noFaults isOnAt cfg "remove" devs =
      ([Effect.logInfo, Effect.logDebug, Effect.logDebugCount 0, Effect.logDebug,
        Effect.cecStandby, Effect.logSuccess, Effect.logSuccess], false) := by
  simp [handle_event, handle_event_body, noFaults, turn_off_tv, h]

/-- Unfolding of `handle_event` when neither branch condition holds: only the
diagnostic logs are emitted. -/
theorem handle_event_other (f : Faults) (isOnAt : Nat → Bool) (cfg : Config)
    (action : String) (devs : List Device)
    (hc : f.countFails = false)
    (h1 : (action == "add" && count_controllers devs == 1) = false)
    (h2 : (action == "remove" && count_controllers devs == 0) = false) :
    handle_event f isOnAt cfg action devs =
      ([Effect.logInfo, Effect.logDebug, Effect.logDebugCount (count_controllers devs)],
       false) := by
  simp [handle_event, handle_event_body, hc, h1, h2]

theorem sublist_skip {α : Type} (l : List α) {xs zs : List α} (s : xs.Sublist zs) :
    xs.Sublist (l ++ zs) := by
  induction l with
  | nil => exact s
  | cons b t ih => exact List.Sublist.cons b ih

theorem cons_sublist_append_cons {α : Type} (a : α) (l : List α) {xs zs : List α}
    (s : xs.Sublist zs) : (a :: xs).Sublist (l ++ a :: zs) := by
  induction l with
  | nil => exact List.Sublist.cons₂ a s
  | cons b t ih => exact List.Sublist.cons b ih

theorem runStates_length (devs : List Device) (evs : List UEvent) :
    (runStates devs evs).length = evs.length := by
  induction evs generalizing devs with
  | nil => rfl
  | cons e rest ih => simp [runStates, ih]

theorem listenerRun_eq (f : Faults) (isOnAt : Nat → Bool) (cfg : Config)
    (devs : List Device) (evs : List UEvent) :
    listenerRun f isOnAt cfg devs evs = some (runTraces f isOnAt cfg devs evs) := by
  induction evs generalizing devs with
  | nil => rfl
  | cons e rest ih =>
    simp [listenerRun, runTraces, runStates, handle_event_snd, ih, stepTrace]

theorem count_controllers_foldl (l : List Device) :
    ∀ n : Nat, l.foldl (fun acc d => if matchesController d then acc + 1 else acc) n
      = n + (l.filter matchesController).length := by
  induction l with
  | nil => intro n; simp
  | cons d t ih =>
    intro n
    by_cases hd : matchesController d
    · simp [hd, List.filter_cons, ih]
      omega
    · simp [hd, List.filter_cons, ih]

theorem count_controllers_eq_filter (devs : List Device) :
    count_controllers devs = (devs.filter matchesController).length := by
  simpa using count_controllers_foldl devs 0

theorem find?_append_some {α : Type} {p : α → Bool} {l1 : List α} (l2 : List α) {x : α}
    (h : l1.find? p = some x) : (l1 ++ l2).find? p = some x := by
  induction l1 with
  | nil => simp [List.find?] at h
  | cons a t ih =>
    by_cases ha : p a
    · rw [List.find?_cons_of_pos _ ha] at h
      rw [List.cons_append, List.find?_cons_of_pos _ ha]
      exact h
    · rw [List.find?_cons_of_neg _ ha] at h
      rw [List.cons_append, List.find?_cons_of_neg _ ha]
      exact ih h

theorem find?_append_none {α : Type} {p : α → Bool} {l1 : List α} (l2 : List α)
    (h : l1.find? p = none) : (l1 ++ l2).find? p = l2.find? p := by
  induction l1 with
  | nil => simp
  | cons a t ih =>
    by_cases ha : p a
    · rw [List.find?_cons_of_pos _ ha] at h
      exact absurd h (by simp)
    · rw [List.find?_cons_of_neg _ ha] at h
      rw [List.cons_append, List.find?_cons_of_neg _ ha]
      exact ih h

/-- The power-on loop sends at most `remaining` power-on commands. -/
theorem powerOnLoop_countP_le (isOnAt : Nat → Bool) :
    ∀ (r : Nat) (b : Bool) (p : Nat),
      (powerOnLoop isOnAt b p r).1.countP isPowerOnCmd ≤ r := by
  intro r
  induction r with
  | zero =>
    intro b p
    cases b <;> simp [powerOnLoop]
  | succ r ih =>
    intro b p
    cases b with
    | true => simp [powerOnLoop]
    | false =>
      simp only [powerOnLoop, List.countP_cons]
      have := ih (isOnAt (p + 1)) (p + 1)
      simp [isPowerOnCmd]
      omega

/-- Filtering a poll-only trace down to actuator effects leaves exactly its
power-on sends. -/
theorem filter_key_poll :
    ∀ l : List Effect, (∀ e ∈ l, isPollEffect e = true) →
      l.filter keyEffect = List.replicate (l.countP isPowerOnCmd) Effect.cecPowerOn := by
  intro l
  induction l with
  | nil => intro _; rfl
  | cons e t ih =>
    intro h
    have he : isPollEffect e = true := h e (List.mem_cons_self e t)
    have ht : ∀ x ∈ t, isPollEffect x = true := fun x hx => h x (List.mem_cons_of_mem e hx)
    rw [List.filter_cons, List.countP_cons]
    cases e <;> simp_all [isPollEffect, keyEffect, isPowerOnCmd, List.replicate]

/-- One unfolding step of the loop from the start: the first emitted effect is
a power-on send. -/
theorem powerOnLoop_head (isOnAt : Nat → Bool) :
    (powerOnLoop isOnAt false 0 10).1 =
      Effect.cecPowerOn :: Effect.sleep 1 :: Effect.cecIsOn :: Effect.logDebug ::
        (powerOnLoop isOnAt (isOnAt 1) 1 9).1 := by
  rfl

/-- Unfolding of `handle_event` on a first-controller Attach when the
wake-packet send raises: the handler logs the error and stops. -/
theorem handle_event_add1_wake (isOnAt : Nat → Bool) (cfg : Config)
    (devs : List Device) (h : count_controllers devs = 1) :
    handle_event wakeFault isOnAt cfg "add" devs =
      ([Effect.logInfo, Effect.logDebug, Effect.logDebugCount 1, Effect.logDebug,
        Effect.readConfigFile, Effect.logError], false) := by
  simp [handle_event, handle_event_body, wakeFault, h]

/-- The update-as-you-scan loop of `read_mac_address_from_config` computes the
last matching entry (the first match of the reversed list), defaulting to the
accumulator. -/
theorem read_mac_foldl (device_name : String) :
    ∀ (l : List (String × String)) (acc : String),
      l.foldl (fun ret d => if d.1 == device_name then d.2 else ret) acc
        = match l.reverse.find? (fun d => d.1 == device_name) with
          | some d => d.2
          | none => acc := by
  intro l
  induction l with
  | nil => intro acc; rfl
  | cons d t ih =>
    intro acc
    rw [List.foldl_cons, ih]
    rw [List.reverse_cons]
    cases hf : t.reverse.find? (fun x => x.1 == device_name) with
    | none =>
      rw [find?_append_none _ hf]
      by_cases hd : (d.1 == device_name) = true
      · simp [List.find?, hd]
      · simp [List.find?, hd]
    | some x =>
      rw [find?_append_some _ hf]

/-! ### Claims -/

/-- C3: the power-on operation, for a device that never reports being on,
sends the on command once per 1-second interval and gives up (still off, no
source switch) after exactly 10 polling attempts, not earlier; for a device
first reporting on at the k-th poll (1 ≤ k ≤ 10) it stops at that poll and
proceeds to switch source. -/
theorem C3_main (k : Nat) (h1 : 1 ≤ k) (h2 : k ≤ 10) : C3PostNever ∧ C3PostK k := by
  constructor
  · simp only [C3PostNever]
    decide
  · simp only [C3PostK]
    interval_cases k <;> decide

theorem C3_witness : (1 ≤ 3 ∧ 3 ≤ 10) ∧ (C3PostNever ∧ C3PostK 3) :=
  ⟨by decide, C3_main 3 (by decide) (by decide)⟩

/-- C4: processing [Attach, Attach, Detach, Detach] from no attached devices
performs the session-start actuator effects exactly once (on the first
Attach: one wake packet, the power-on sends, one client launch) and standby
exactly once (on the second Detach); the middle two events perform no side
effect at all. -/
theorem C4_main :
    (runTraces noFaults neverOn cfg0 [] evs4).length = 4 ∧
    ((runTraces noFaults neverOn cfg0 [] evs4).getD 0 []).filter keyEffect =
      Effect.sendMagicPacket "AA:BB:CC:DD:EE:FF" ::
        (List.replicate 10 Effect.cecPowerOn ++ [Effect.runProcess "moonlight"]) ∧
    ((runTraces noFaults neverOn cfg0 [] evs4).getD 1 []).filter isSideEffect = [] ∧
    ((runTraces noFaults neverOn cfg0 [] evs4).getD 2 []).filter isSideEffect = [] ∧
    ((runTraces noFaults neverOn cfg0 [] evs4).getD 3 []).filter keyEffect =
      [Effect.cecStandby] := by
  decide

/-- C7: under every fault injection, every error raised while handling an
event is caught and logged inside that event's handling and never escapes
the handler, so the listener processes the entire event sequence. -/
theorem C7_main (f : Faults) (isOnAt : Nat → Bool) (cfg : Config)
    (devs0 : List Device) (evs : List UEvent) : C7Post f isOnAt cfg devs0 evs := by
  refine ⟨listenerRun_eq f isOnAt cfg devs0 evs, ?_,
    fun action devs => handle_event_snd f isOnAt cfg action devs,
    fun action devs hb => ?_⟩
  · simp [runTraces, runStates_length]
  · simp [handle_event, hb]

theorem C7_witness : C7Post wakeFault neverOn cfg0 [] [⟨UAction.add, ctrl1⟩] :=
  C7_main wakeFault neverOn cfg0 [] [⟨UAction.add, ctrl1⟩]

/-- C8: the controller census is the loop over the current device list and
equals the number of currently attached matching devices (a pure snapshot,
never negative); it is a function of the attachment set alone, so any two
event histories leading to the same set yield the same count (idempotence is
the histories-equal special case). -/
theorem C8_main (devs devs0 devs0' : List Device) (evs evs' : List UEvent)
    (h : applyEvents devs0 evs = applyEvents devs0' evs') :
    count_controllers devs = (devs.filter matchesController).length ∧
    0 ≤ count_controllers devs ∧
    count_controllers (applyEvents devs0 evs) =
      count_controllers (applyEvents devs0' evs') :=
  ⟨count_controllers_eq_filter devs, Nat.zero_le _, by rw [h]⟩

theorem C8_witness :
    applyEvents [ctrl1] [] = applyEvents [] [⟨UAction.add, ctrl1⟩] ∧
    (count_controllers [ctrl1] = (([ctrl1] : List Device).filter matchesController).length ∧
     0 ≤ count_controllers [ctrl1] ∧
     count_controllers (applyEvents [ctrl1] []) =
       count_controllers (applyEvents [] [⟨UAction.add, ctrl1⟩])) :=
  ⟨by decide, C8_main [ctrl1] [ctrl1] [] [] [⟨UAction.add, ctrl1⟩] (by decide)⟩

/-- C9: an interrupt or terminate signal received while idle runs the signal
handler, which exits the process having performed no power-control command
and sent no network packet. -/
theorem C9_main (signum : Nat) (h : signum = 2 ∨ signum = 15) : C9Post signum := by
  rcases h with rfl | rfl <;> (simp only [C9Post]; decide)

theorem C9_witness : (2 = 2 ∨ 2 = 15) ∧ C9Post 2 :=
  ⟨Or.inl rfl, C9_main 2 (Or.inl rfl)⟩

/-- C5 counterexample: the claim says the configuration is read once at
startup and never during event handling, but handling a first-controller
Attach reads the config file (for the MAC address) inside the handler. -/
theorem C5_counterexample : ¬ C5Statement := by
  intro h
  exact h noFaults cfg0 neverOn "add" [ctrl1] (by decide)

/-- C5 amended: a missing config file or missing log path is fatal at startup,
but the MAC address is not loaded at startup — it is read from the config
file during the handling of each first-controller Attach event, and a
failure to use it there is caught inside the handler, so event handling does
occur without a valid MAC address preloaded. -/
theorem C5_amended (c cfg : Config) (isOnAt : Nat → Bool) (devs : List Device)
    (h1 : c.logPathField = none) (h2 : count_controllers devs = 1) :
    C5Post c cfg isOnAt devs := by
  refine ⟨rfl, ?_, ?_, handle_event_snd wakeFault isOnAt cfg "add" devs⟩
  · simp [startup, read_log_path_from_config, h1]
  · simp [handle_event_add1 isOnAt cfg devs h2]

theorem C5_amended_witness :
    (cfgNoLog.logPathField = none ∧ count_controllers [ctrl1] = 1) ∧
    C5Post cfgNoLog cfg0 neverOn [ctrl1] :=
  ⟨by decide, C5_amended cfgNoLog cfg0 neverOn [ctrl1] rfl (by decide)⟩

/-- C6 counterexample: the claim says a wake-packet error still lets handling
continue to the power-on step, but with the wake send raising, the handler
of a first-controller Attach never sends a power-on command. -/
theorem C6_counterexample : ¬ C6Statement := by
  intro h
  exact absurd (h cfg0 neverOn [ctrl1] (by decide)) (by decide)

/-- C6 amended: a wake-packet error on a first-controller Attach is non-fatal
and logged, but the handling of that event stops there: the power-on step,
the source switch and the client launch are all skipped (no actuator effect
is performed). -/
theorem C6_amended (cfg : Config) (isOnAt : Nat → Bool) (devs : List Device)
    (h : count_controllers devs = 1) : C6Post cfg isOnAt devs := by
  have htr := handle_event_add1_wake isOnAt cfg devs h
  refine ⟨?_, ?_, handle_event_snd wakeFault isOnAt cfg "add" devs⟩
  · simp [htr]
  · simp [htr, isSideEffect]

theorem C6_amended_witness :
    count_controllers [ctrl1] = 1 ∧ C6Post cfg0 neverOn [ctrl1] :=
  ⟨by decide, C6_amended cfg0 neverOn [ctrl1] (by decide)⟩

/-- C10: `read_mac_address_from_config` returns the MAC of the last entry in
the devices list whose name equals the requested device name, and the empty
string — not an error — when no entry matches. -/
theorem C10_main (cfg : Config) (device_name : String) :
    read_mac_address_from_config cfg device_name =
      lastMatchingMac cfg.devices device_name ∧
    (cfg.devices.filter (fun d => d.1 == device_name) = [] →
      read_mac_address_from_config cfg device_name = "") := by
  have he : read_mac_address_from_config cfg device_name =
      lastMatchingMac cfg.devices device_name := by
    unfold read_mac_address_from_config lastMatchingMac
    exact read_mac_foldl device_name cfg.devices ""
  refine ⟨he, fun hnil => ?_⟩
  rw [he]
  unfold lastMatchingMac
  have hnone : cfg.devices.reverse.find? (fun d => d.1 == device_name) = none := by
    rw [List.find?_eq_none]
    intro x hx
    have hx2 : x ∈ cfg.devices := List.mem_reverse.mp hx
    have := List.filter_eq_nil_iff.mp hnil x hx2
    simpa using this
  rw [hnone]

theorem C10_witness :
    (read_mac_address_from_config cfgNoPC "pc" = lastMatchingMac cfgNoPC.devices "pc" ∧
     (cfgNoPC.devices.filter (fun d => d.1 == "pc") = [] →
       read_mac_address_from_config cfgNoPC "pc" = "")) ∧
    read_mac_address_from_config cfgNoPC "pc" = "" :=
  ⟨C10_main cfgNoPC "pc", (C10_main cfgNoPC "pc").2 (by decide)⟩

/-- C1 counterexample: a Detach arriving with recomputed count 0 while the
spec-side session state is still Idle (daemon started with one controller
attached, which is then unplugged as the very first event) makes the handler
issue standby, which the claim forbids. -/
theorem C1_counterexample : ¬ C1Statement := by
  intro h
  have hmem : ((⟨UAction.remove, ctrl1⟩, [], SessionState.Idle) :
      UEvent × List Device × SessionState) ∈
        annotatedRun SessionState.Idle [ctrl1] [⟨UAction.remove, ctrl1⟩] := by decide
  have hiff := h cfg0 neverOn [ctrl1] [⟨UAction.remove, ctrl1⟩] _ hmem
  have hstand : Effect.cecStandby ∈
      stepTrace noFaults neverOn cfg0 (⟨UAction.remove, ctrl1⟩, ([] : List Device)) := by
    decide
  exact absurd (hiff.mp hstand).2.2 (by decide)

/-- C1 amended: the handler keeps no session state; standby is issued exactly
on a Detach whose recomputed count is 0, and the session-start effects (the
wake packet) exactly on an Attach whose recomputed count is 1, regardless of
any prior history — in particular a Detach with count 0 arriving while the
spec-side session is still Idle does issue standby. -/
theorem C1_amended (cfg : Config) (isOnAt : Nat → Bool) (devs0 : List Device)
    (evs : List UEvent) (p : UEvent × List Device)
    (hp : p ∈ runStates devs0 evs) : C1Post cfg isOnAt p := by
  obtain ⟨e, devs⟩ := p
  simp only [C1Post, stepTrace]
  cases ha : e.action with
  | add =>
    by_cases hc : count_controllers devs = 1
    · have htr := handle_event_add1 isOnAt cfg devs hc
      have hLs : Effect.cecStandby ∉ (powerOnLoop isOnAt false 0 10).1 := by
        intro hmem
        have := powerOnLoop_poll isOnAt 10 false 0 _ hmem
        simp [isPollEffect] at this
      have hLm : Effect.sendMagicPacket (read_mac_address_from_config cfg "pc") ∉
          (powerOnLoop isOnAt false 0 10).1 := by
        intro hmem
        have := powerOnLoop_poll isOnAt 10 false 0 _ hmem
        simp [isPollEffect] at this
      cases hon : (powerOnLoop isOnAt false 0 10).2.1 <;>
        simp [actionString, htr, hon, hLs, hLm, hc, ha]
    · have hsr : ("add" == "remove") = false := by decide
      have h1 : (("add" == "add") && (count_controllers devs == 1)) = false := by
        simp [hc]
      have h2 : (("add" == "remove") && (count_controllers devs == 0)) = false := by
        rw [hsr, Bool.false_and]
      have htr := handle_event_other noFaults isOnAt cfg "add" devs rfl h1 h2
      simp [actionString, htr, hc, ha]
  | remove =>
    by_cases hc : count_controllers devs = 0
    · have htr := handle_event_remove0 isOnAt cfg devs hc
      simp [actionString, htr, hc, ha]
    · have hra : ("remove" == "add") = false := by decide
      have h1 : (("remove" == "add") && (count_controllers devs == 1)) = false := by
        rw [hra, Bool.false_and]
      have h2 : (("remove" == "remove") && (count_controllers devs == 0)) = false := by
        simp [hc]
      have htr := handle_event_other noFaults isOnAt cfg "remove" devs rfl h1 h2
      simp [actionString, htr, hc, ha]

theorem C1_amended_witness :
    ((⟨UAction.remove, ctrl1⟩, ([] : List Device)) ∈
      runStates [ctrl1] [⟨UAction.remove, ctrl1⟩]) ∧
    C1Post cfg0 neverOn (⟨UAction.remove, ctrl1⟩, ([] : List Device)) :=
  ⟨by decide,
   C1_amended cfg0 neverOn [ctrl1] [⟨UAction.remove, ctrl1⟩] _ (by decide)⟩

/-- C2: on an Attach whose recomputed count is 1, the actuator effects of the
handler are, in this order: exactly one wake packet to the configured MAC,
then the power-on retry loop's sends (at least one, at most ten), then the
switch-source command exactly if power-on succeeded, then exactly one client
launch — unconditionally, even when power-on timed out. -/
theorem C2_main (cfg : Config) (isOnAt : Nat → Bool) (devs : List Device)
    (h : count_controllers devs = 1) : C2Post cfg isOnAt devs := by
  have htr := handle_event_add1 isOnAt cfg devs h
  have hfil := filter_key_poll _ (powerOnLoop_poll isOnAt 10 false 0)
  have hon : (turn_on_tv_and_switch_source false isOnAt).2.1 =
      (powerOnLoop isOnAt false 0 10).2.1 := by
    simp [turn_on_tv_and_switch_source, timeoutSeconds]
  refine ⟨(powerOnLoop isOnAt false 0 10).1.countP isPowerOnCmd, ?_, ?_, ?_⟩
  · rw [powerOnLoop_head isOnAt]
    simp [List.countP_cons, isPowerOnCmd]
  · exact powerOnLoop_countP_le isOnAt 10 false 0
  · rw [htr]
    cases hcond : (powerOnLoop isOnAt false 0 10).2.1 <;>
      simp [hon, hcond, List.filter_append, hfil, keyEffect]

theorem C2_witness : count_controllers [ctrl1] = 1 ∧ C2Post cfg0 neverOn [ctrl1] :=
  ⟨by decide, C2_main cfg0 neverOn [ctrl1] (by decide)⟩
